import Mathlib

/-!
Shallow embedding of the `jj` socket wrappers (src/tcp.hh, src/udp.hh).

OS socket primitives (`socket`, `bind`, `connect`, `listen`, `accept`,
`send`/`sendto`, `recv`, `close`) are external: each operation takes the
return values the OS would produce as explicit oracle arguments and records
the primitives it invokes, in order, in a `SysEvent` trace.  C++ exceptions
are modelled by `Except CppError`; C++ buffers (`std::vector<T>` /
`std::string`) are modelled by their logical size and capacity (`Vec`),
since the wrapped operations only manipulate sizes and raw byte counts.
Machine integers: `int`/`ssize_t` returns are `Int`; byte counts are `Nat`;
`uint16_t`/`uint32_t` arithmetic is `Nat` with explicit `% 2 ^ w`.
-/

/-- The C++ exception kinds the wrapped code can raise:
`runtimeError` from the `assert_throw` helper, `invalidArgument` and
`outOfRange` from `std::stoul`, `lengthError` from
`std::basic_string::resize` when the requested size exceeds `max_size()`. -/
inductive CppError where
  | runtimeError (msg : String)
  | invalidArgument (msg : String)
  | outOfRange (msg : String)
  | lengthError (msg : String)
  deriving DecidableEq, Repr

/-- Model of `struct sockaddr_in`: family, port (network byte order) and
IPv4 address (as a 32-bit value).  Padding bytes are not modelled. -/
structure SockAddrIn where
  sin_family : Nat
  sin_port : Nat
  sin_addr : Nat
  deriving DecidableEq, Repr

/-- The all-zero `sockaddr_in`, produced by `std::fill` with `std::byte{0}`
and by the `= {0}` member initializer in `UDP`. -/
def zeroAddr : SockAddrIn := ⟨0, 0, 0⟩

/-- Model of `AF_INET`. -/
def AF_INET : Nat := 2

/-- Model of `INADDR_ANY`. -/
def INADDR_ANY : Nat := 0

/-- Model of `INADDR_NONE`, returned by `inet_addr` on malformed input. -/
def INADDR_NONE : Nat := 2 ^ 32 - 1

/-- Model of `ULONG_MAX` on a 64-bit host; `std::stoul` raises `out_of_range` above it. -/
def ULONG_MAX : Nat := 2 ^ 64 - 1

/-- One invocation of an OS socket primitive, as recorded in an operation's
trace.  `sendCall` records the byte count handed to `send`/`sendto` and the
destination address (`none` for connected-stream `send`). -/
inductive SysEvent where
  | socketCreate (fd : Int)
  | bindCall (fd : Int) (addr : SockAddrIn)
  | connectCall (fd : Int) (addr : SockAddrIn)
  | listenCall (fd : Int) (backlog : Nat)
  | acceptCall (fd : Int)
  | sendCall (fd : Int) (nbytes : Nat) (dest : Option SockAddrIn)
  | recvCall (fd : Int) (bufBytes : Nat)
  | closeCall (fd : Int)
  deriving DecidableEq, Repr

/-- Decimal value of a digit list (most significant first). -/
def digitsVal (ds : List Char) : Nat :=
  ds.foldl (fun a c => a * 10 + (c.toNat - 48)) 0

/-- Model of `std::stoul` (base 10): skip leading whitespace, optional
sign, then at least one decimal digit; `invalid_argument` if no digit,
`out_of_range` if the value exceeds `ULONG_MAX`; a leading `-` negates in
64-bit unsigned arithmetic (as `strtoul` does). -/
def stoul (s : String) : Except CppError Nat :=
  let cs := s.data.dropWhile (fun c => c.isWhitespace)
  let sign := match cs with
    | '-' :: rest => (true, rest)
    | '+' :: rest => (false, rest)
    | rest => (false, rest)
  let ds := sign.2.takeWhile (fun c => c.isDigit)
  if ds.isEmpty then .error (.invalidArgument "stoul")
  else
    let v := digitsVal ds
    if ULONG_MAX < v then .error (.outOfRange "stoul")
    else .ok (if sign.1 then (2 ^ 64 - v % 2 ^ 64) % 2 ^ 64 else v)

/-- Model of `htons`: truncate to 16 bits and swap the two bytes. -/
def htons (n : Nat) : Nat :=
  let v := n % 2 ^ 16
  v % 2 ^ 8 * 2 ^ 8 + v / 2 ^ 8

deriving instance DecidableEq for Except

/-- Split a character list at every dot. -/
def splitDot : List Char → List (List Char)
  | [] => [[]]
  | c :: cs =>
    if c = '.' then [] :: splitDot cs
    else
      match splitDot cs with
      | [] => [[c]]
      | p :: ps => (c :: p) :: ps

/-- One decimal component of a dotted-quad address: nonempty, all digits,
value at most 255. -/
def parseDecByte (cs : List Char) : Option Nat :=
  if cs.isEmpty then none
  else if cs.all (fun c => c.isDigit) then
    let v := digitsVal cs
    if v ≤ 255 then some v else none
  else none

/-- Model of libc `inet_addr` restricted to the canonical dotted-quad
decimal form `a.b.c.d`; returns the address as a 32-bit value (byte order
inside the 32-bit word is abstracted), `INADDR_NONE` on malformed input. -/
def inet_addr (s : String) : Nat :=
  match (splitDot s.data).mapM parseDecByte with
  | some [a, b, c, d] => a * 2 ^ 24 + b * 2 ^ 16 + c * 2 ^ 8 + d
  | _ => INADDR_NONE

/-- Model of `jj::assert_throw` (src/tcp.hh:18-24, src/udp.hh:17-23): throw
`std::runtime_error(msg)` when the condition is false. -/
def assert_throw (condition : Prop) [Decidable condition] (msg : String) :
    Except CppError Unit :=
  if condition then .ok () else .error (.runtimeError msg)

/-- A `std::vector<T>` / `std::string` buffer, modelled by logical size and
capacity.  The wrapped code resizes only within capacity (it uses capacity
as the buffer limit), so `resize` never changes capacity here. -/
structure Vec where
  size : Nat
  capacity : Nat
  deriving DecidableEq, Repr

/-- Model of `TCP::Side` (src/tcp.hh:37-42). -/
inductive TCP.Side where
  | CLIENT
  | SERVER
  | CONNECTION
  deriving DecidableEq, Repr

/-- Model of `jj::TCP`'s data members (src/tcp.hh:44-48).  `sock_conf_len` is a
`socklen_t` (unsigned 32-bit); it is modelled as `Int` with `-1` standing
for the assigned sentinel `(socklen_t)-1`. -/
structure TCP where
  sock_fd : Int
  sock_conf : SockAddrIn
  sock_conf_len : Int
  side : TCP.Side
  deriving DecidableEq, Repr

/-- Model of `UDP::Side` (src/udp.hh:35-39). -/
inductive UDP.Side where
  | CLIENT
  | SERVER
  deriving DecidableEq, Repr

/-- Model of `jj::UDP`'s data members (src/udp.hh:41-45). -/
structure UDP where
  sock_fd : Int
  sock_conf : SockAddrIn
  sock_conf_len : Int
  side : UDP.Side
  deriving DecidableEq, Repr

/-- OS results consumed by a constructor call: the fd `socket` returns and
the results of `bind`/`connect` (whichever the role reaches).  `initConf`
is the indeterminate initial content of TCP's uninitialized `sock_conf`
member (UDP zero-initializes its own). -/
structure CtorOracle where
  socketRet : Int
  bindRet : Int
  connectRet : Int
  initConf : SockAddrIn
  deriving DecidableEq, Repr

/-- Result of a send-like operation on endpoint type `E`: the OS calls it
made, the endpoint's state afterwards, and normal return or exception. -/
structure SendOut (E : Type) where
  trace : List SysEvent
  endpoint : E
  result : Except CppError Unit
  deriving DecidableEq, Repr

/-- Result of a receive into a sized buffer: trace, endpoint state, the
caller's buffer state after the operation (meaningful even when an
exception propagates), and normal return or exception. -/
structure RecvOut (E : Type) where
  trace : List SysEvent
  endpoint : E
  buf : Vec
  result : Except CppError Unit
  deriving DecidableEq, Repr

/-- Result of the raw `write`/`read` wrappers, which return the `ssize_t`
byte count. -/
structure RawOut (E : Type) where
  trace : List SysEvent
  endpoint : E
  result : Except CppError Int
  deriving DecidableEq, Repr

/-- Model of `TCP::TCP(const std::string, const std::string, const Side&)`
(src/tcp.hh:59-81).  `socket` is invoked first; only afterwards is the
port parsed by `std::stoul`, whose exception propagates out of the
constructor.  The destructor of a never-completed object does not run, so
on a post-`socket` failure the created fd is not closed (no `closeCall` in
the trace).  Port: `sock_conf.sin_port = htons(std::stoul(port))`;
`sock_conf_len = sizeof(sock_conf)` (= 16).  SERVER: bind to
`inet_addr("0.0.0.0")`.  CLIENT: connect to `inet_addr(ip_addr)`, then
`sock_conf_len = -1`.  Any other side value takes neither branch. -/
def TCP.construct (o : CtorOracle) (ip_addr port : String) (side : TCP.Side) :
    List SysEvent × Except CppError TCP :=
  let fd := o.socketRet
  let tr := [SysEvent.socketCreate fd]
  match assert_throw (fd ≠ -1) "Failed to create socket" with
  | .error e => (tr, .error e)
  | .ok _ =>
    match stoul port with
    | .error e => (tr, .error e)
    | .ok p =>
      let conf := { o.initConf with sin_family := AF_INET, sin_port := htons p }
      if side = TCP.Side.SERVER then
        let conf := { conf with sin_addr := inet_addr "0.0.0.0" }
        let tr := tr ++ [SysEvent.bindCall fd conf]
        match assert_throw (o.bindRet ≠ -1) "Failed to bind to port" with
        | .error e => (tr, .error e)
        | .ok _ => (tr, .ok ⟨fd, conf, 16, side⟩)
      else if side = TCP.Side.CLIENT then
        let conf := { conf with sin_addr := inet_addr ip_addr }
        let tr := tr ++ [SysEvent.connectCall fd conf]
        match assert_throw (o.connectRet ≠ -1) "Failed to connect to server" with
        | .error e => (tr, .error e)
        | .ok _ => (tr, .ok ⟨fd, conf, -1, side⟩)
      else
        (tr, .ok ⟨fd, conf, 16, side⟩)

/-- Model of `TCP::~TCP()` (src/tcp.hh:84-87): unconditionally `close(sock_fd)`. -/
def TCP.destruct (tcp : TCP) : List SysEvent :=
  [SysEvent.closeCall tcp.sock_fd]

/-- Private `TCP::TCP(int)` (src/tcp.hh:50-54): wraps an accepted fd with
`sock_conf` zero-filled, `sock_conf_len = -1`, side `CONNECTION`. -/
def TCP.ofAcceptedFd (fd : Int) : TCP :=
  ⟨fd, zeroAddr, -1, TCP.Side.CONNECTION⟩

/-- Model of `TCP::TCP(TCP&&)` (src/tcp.hh:96-106).  Returns (destination, source
after the move).  The `std::fill` zeroes the destination's own `sock_conf`
(the expression lacks the `obj.` qualifier) right after it was copied from
the source; the source keeps its `sock_conf` but receives the sentinel
`sock_fd = -1` and `sock_conf_len = -1`. -/
def TCP.moveCtor (obj : TCP) : TCP × TCP :=
  (⟨obj.sock_fd, zeroAddr, obj.sock_conf_len, obj.side⟩,
   { obj with sock_fd := -1, sock_conf_len := -1 })

/-- Model of `TCP::operator=(TCP&&)` (src/tcp.hh:109-125), modelled for distinct
objects (the self-assignment guard not taken).  `side` is NOT copied from
the source, and the `std::fill` again zeroes the destination's own
`sock_conf`. -/
def TCP.moveAssign (self obj : TCP) : TCP × TCP :=
  (⟨obj.sock_fd, zeroAddr, obj.sock_conf_len, self.side⟩,
   { obj with sock_fd := -1, sock_conf_len := -1 })

/-- Model of `TCP::accept_connection` (src/tcp.hh:129-139).  `listenRet`/
`acceptRet` are the OS results; on success `accept` writes the peer
address and its length into the server's own `sock_conf`/`sock_conf_len`
and the returned endpoint is the private-constructor wrap of the new fd. -/
def TCP.accept_connection (tcp : TCP) (queue_size : Nat)
    (listenRet acceptRet : Int) (peerAddr : SockAddrIn) (peerLen : Int) :
    List SysEvent × TCP × Except CppError TCP :=
  match assert_throw (tcp.side = TCP.Side.SERVER) "Must accept connection from server" with
  | .error e => ([], tcp, .error e)
  | .ok _ =>
    let tr := [SysEvent.listenCall tcp.sock_fd queue_size]
    match assert_throw (listenRet ≠ -1) "Failed to start listener" with
    | .error e => (tr, tcp, .error e)
    | .ok _ =>
      let tr := tr ++ [SysEvent.acceptCall tcp.sock_fd]
      match assert_throw (acceptRet ≠ -1) "Failed to accept connection" with
      | .error e => (tr, tcp, .error e)
      | .ok _ =>
        (tr, { tcp with sock_conf := peerAddr, sock_conf_len := peerLen },
          .ok (TCP.ofAcceptedFd acceptRet))

/-- Model of `operator<<(TCP&, const std::vector<T>&)` (src/tcp.hh:142-148): role
check, then `send(fd, data, size * sizeof(T), 0)`.  `count`/`elemSize`
stand for `obj.size()`/`sizeof(T)`; `osRet` is what `send` returns. -/
def TCP.sendVector (tcp : TCP) (count elemSize : Nat) (osRet : Int) : SendOut TCP :=
  match assert_throw (tcp.side ≠ TCP.Side.SERVER) "Can not write to server socket" with
  | .error e => ⟨[], tcp, .error e⟩
  | .ok _ =>
    ⟨[SysEvent.sendCall tcp.sock_fd (count * elemSize) none], tcp,
      assert_throw (osRet ≠ -1) "Failed to write to socket"⟩

/-- Model of `operator>>(TCP&, std::vector<T>&)` (src/tcp.hh:152-160): role check;
`obj.resize(obj.capacity())`; `recv` with byte limit
`capacity * sizeof(T)`; `-1` check; `obj.resize(nbytes / sizeof(T))`.
When the `-1` check throws, the buffer has already been resized to full
capacity. -/
def TCP.recvVector (tcp : TCP) (elemSize : Nat) (obj : Vec) (osRet : Int) : RecvOut TCP :=
  match assert_throw (tcp.side ≠ TCP.Side.SERVER) "Can not read from server socket" with
  | .error e => ⟨[], tcp, obj, .error e⟩
  | .ok _ =>
    let obj := { obj with size := obj.capacity }
    let tr := [SysEvent.recvCall tcp.sock_fd (obj.capacity * elemSize)]
    match assert_throw (osRet ≠ -1) "Failed to read from socket" with
    | .error e => ⟨tr, tcp, obj, .error e⟩
    | .ok _ => ⟨tr, tcp, { obj with size := osRet.toNat / elemSize }, .ok ()⟩

/-- Model of `operator<<(TCP&, const std::string&)` (src/tcp.hh:163-169): role
check, then `send(fd, c_str, size + 1, 0)` — the terminator byte is
included.  `len` stands for `obj.size()`. -/
def TCP.sendString (tcp : TCP) (len : Nat) (osRet : Int) : SendOut TCP :=
  match assert_throw (tcp.side ≠ TCP.Side.SERVER) "Can not write to server socket" with
  | .error e => ⟨[], tcp, .error e⟩
  | .ok _ =>
    ⟨[SysEvent.sendCall tcp.sock_fd (len + 1) none], tcp,
      assert_throw (osRet ≠ -1) "Failed to write to socket"⟩

/-- Model of `operator>>(TCP&, std::string&)` (src/tcp.hh:174-181): role check;
`recv` with byte limit `capacity`; then `obj.resize(nbytes)` BEFORE the
`-1` check.  With `nbytes = -1` the `int → size_t` conversion yields a
value above `max_size()`, so `resize` throws `std::length_error` and the
`assert_throw` (ReadError) line is never reached; the string keeps its
previous size. -/
def TCP.recvString (tcp : TCP) (obj : Vec) (osRet : Int) : RecvOut TCP :=
  match assert_throw (tcp.side ≠ TCP.Side.SERVER) "Can not read from server socket" with
  | .error e => ⟨[], tcp, obj, .error e⟩
  | .ok _ =>
    let tr := [SysEvent.recvCall tcp.sock_fd obj.capacity]
    if osRet < 0 then ⟨tr, tcp, obj, .error (.lengthError "basic_string::resize")⟩
    else ⟨tr, tcp, { obj with size := osRet.toNat }, .ok ()⟩

/-- Generic `operator<<(TCP&, const T&)` (src/tcp.hh:186-192): role check,
then `send(fd, &obj, sizeof(obj), 0)`. -/
def TCP.sendTrivial (tcp : TCP) (sizeofT : Nat) (osRet : Int) : SendOut TCP :=
  match assert_throw (tcp.side ≠ TCP.Side.SERVER) "Can not write to server socket" with
  | .error e => ⟨[], tcp, .error e⟩
  | .ok _ =>
    ⟨[SysEvent.sendCall tcp.sock_fd sizeofT none], tcp,
      assert_throw (osRet ≠ -1) "Failed to write to socket"⟩

/-- Generic `operator>>(TCP&, T&)` (src/tcp.hh:197-203): role check, then
`recv(fd, &obj, sizeof(obj), 0)`; the object's bytes are written by the
OS, no resizing is involved. -/
def TCP.recvTrivial (tcp : TCP) (sizeofT : Nat) (osRet : Int) : SendOut TCP :=
  match assert_throw (tcp.side ≠ TCP.Side.SERVER) "Can not read from server socket" with
  | .error e => ⟨[], tcp, .error e⟩
  | .ok _ =>
    ⟨[SysEvent.recvCall tcp.sock_fd sizeofT], tcp,
      assert_throw (osRet ≠ -1) "Failed to read from socket"⟩

/-- Model of `TCP::write` (src/tcp.hh:206-212): role check, `send`, `-1` check,
return the byte count. -/
def TCP.write (tcp : TCP) (size : Nat) (osRet : Int) : RawOut TCP :=
  match assert_throw (tcp.side ≠ TCP.Side.SERVER) "Can not write to server socket" with
  | .error e => ⟨[], tcp, .error e⟩
  | .ok _ =>
    ⟨[SysEvent.sendCall tcp.sock_fd size none], tcp,
      match assert_throw (osRet ≠ -1) "Failed to write to socket" with
      | .error e => .error e
      | .ok _ => .ok osRet⟩

/-- Model of `TCP::read` (src/tcp.hh:215-221): role check, `recv`, `-1` check,
return the byte count. -/
def TCP.read (tcp : TCP) (size : Nat) (osRet : Int) : RawOut TCP :=
  match assert_throw (tcp.side ≠ TCP.Side.SERVER) "Can not read from server socket" with
  | .error e => ⟨[], tcp, .error e⟩
  | .ok _ =>
    ⟨[SysEvent.recvCall tcp.sock_fd size], tcp,
      match assert_throw (osRet ≠ -1) "Failed to read from socket" with
      | .error e => .error e
      | .ok _ => .ok osRet⟩

/-- Model of `UDP::UDP(const std::string, const std::string, const Side&)`
(src/udp.hh:49-68).  Same shape as TCP's constructor: `socket` first,
then `std::stoul(port)` (whose exception leaves the fd unclosed), then
SERVER binds to `INADDR_ANY`; CLIENT (the only other enumerator) merely
records `inet_addr(ip_addr)` — no connect call.  `sock_conf` is
zero-initialized by the `= {0}` member initializer. -/
def UDP.construct (o : CtorOracle) (ip_addr port : String) (side : UDP.Side) :
    List SysEvent × Except CppError UDP :=
  let fd := o.socketRet
  let tr := [SysEvent.socketCreate fd]
  match assert_throw (fd ≠ -1) "Failed to create socket" with
  | .error e => (tr, .error e)
  | .ok _ =>
    match stoul port with
    | .error e => (tr, .error e)
    | .ok p =>
      let conf := { zeroAddr with sin_family := AF_INET, sin_port := htons p }
      if side = UDP.Side.SERVER then
        let conf := { conf with sin_addr := INADDR_ANY }
        let tr := tr ++ [SysEvent.bindCall fd conf]
        match assert_throw (o.bindRet ≠ -1) "Failed to bind to port" with
        | .error e => (tr, .error e)
        | .ok _ => (tr, .ok ⟨fd, conf, 16, side⟩)
      else
        let conf := { conf with sin_addr := inet_addr ip_addr }
        (tr, .ok ⟨fd, conf, 16, side⟩)

/-- Model of `UDP::~UDP()` (src/udp.hh:71-74): unconditionally `close(sock_fd)`. -/
def UDP.destruct (udp : UDP) : List SysEvent :=
  [SysEvent.closeCall udp.sock_fd]

/-- Model of `UDP::UDP(UDP&&)` (src/udp.hh:80-90): same missing-`obj.`-qualifier
`std::fill` as TCP's — the destination's `sock_conf` ends up zeroed while
the source keeps its own; source gets `sock_fd = -1`,
`sock_conf_len = -1`. -/
def UDP.moveCtor (obj : UDP) : UDP × UDP :=
  (⟨obj.sock_fd, zeroAddr, obj.sock_conf_len, obj.side⟩,
   { obj with sock_fd := -1, sock_conf_len := -1 })

/-- Model of `UDP::operator=(UDP&&)` (src/udp.hh:93-110), modelled for distinct
objects.  Unlike TCP's move assignment it does copy `side`, but the
`std::fill` still zeroes the destination's own `sock_conf`. -/
def UDP.moveAssign (_self obj : UDP) : UDP × UDP :=
  (⟨obj.sock_fd, zeroAddr, obj.sock_conf_len, obj.side⟩,
   { obj with sock_fd := -1, sock_conf_len := -1 })

/-- Model of `operator<<(UDP&, const std::vector<T>&)` (src/udp.hh:116-122): no
role check; `sendto(fd, data, size * sizeof(T), 0, &sock_conf,
sock_conf_len)` — the destination is the endpoint's stored address. -/
def UDP.sendVector (udp : UDP) (count elemSize : Nat) (osRet : Int) : SendOut UDP :=
  ⟨[SysEvent.sendCall udp.sock_fd (count * elemSize) (some udp.sock_conf)], udp,
    assert_throw (osRet ≠ -1) "Failed to write to socket"⟩

/-- Model of `operator>>(UDP&, std::vector<T>&)` (src/udp.hh:126-133): no role
check; `obj.resize(obj.capacity())`; `recv` (not `recvfrom` — the sender's
address is not captured) with byte limit `capacity * sizeof(T)`; `-1`
check; `obj.resize(nbytes / sizeof(T))`. -/
def UDP.recvVector (udp : UDP) (elemSize : Nat) (obj : Vec) (osRet : Int) : RecvOut UDP :=
  let obj := { obj with size := obj.capacity }
  let tr := [SysEvent.recvCall udp.sock_fd (obj.capacity * elemSize)]
  match assert_throw (osRet ≠ -1) "Failed to read from socket" with
  | .error e => ⟨tr, udp, obj, .error e⟩
  | .ok _ => ⟨tr, udp, { obj with size := osRet.toNat / elemSize }, .ok ()⟩

/-- Model of `operator<<(UDP&, const std::string&)` (src/udp.hh:136-142):
`sendto(fd, c_str, size + 1, 0, &sock_conf, sock_conf_len)`. -/
def UDP.sendString (udp : UDP) (len : Nat) (osRet : Int) : SendOut UDP :=
  ⟨[SysEvent.sendCall udp.sock_fd (len + 1) (some udp.sock_conf)], udp,
    assert_throw (osRet ≠ -1) "Failed to write to socket"⟩

/-- Model of `operator>>(UDP&, std::string&)` (src/udp.hh:147-153): `recv` with
byte limit `capacity`, then `obj.resize(nbytes)` BEFORE the `-1` check —
same premature resize as TCP's string receive, throwing
`std::length_error` on a failed read. -/
def UDP.recvString (udp : UDP) (obj : Vec) (osRet : Int) : RecvOut UDP :=
  let tr := [SysEvent.recvCall udp.sock_fd obj.capacity]
  if osRet < 0 then ⟨tr, udp, obj, .error (.lengthError "basic_string::resize")⟩
  else ⟨tr, udp, { obj with size := osRet.toNat }, .ok ()⟩

/-- Generic `operator<<(UDP&, const T&)` (src/udp.hh:158-165):
`sendto(fd, &obj, sizeof(T), 0, &sock_conf, sock_conf_len)`. -/
def UDP.sendTrivial (udp : UDP) (sizeofT : Nat) (osRet : Int) : SendOut UDP :=
  ⟨[SysEvent.sendCall udp.sock_fd sizeofT (some udp.sock_conf)], udp,
    assert_throw (osRet ≠ -1) "Failed to write to socket"⟩

/-- Generic `operator>>(UDP&, T&)` (src/udp.hh:170-175):
`recv(fd, &obj, sizeof(obj), 0)`. -/
def UDP.recvTrivial (udp : UDP) (sizeofT : Nat) (osRet : Int) : SendOut UDP :=
  ⟨[SysEvent.recvCall udp.sock_fd sizeofT], udp,
    assert_throw (osRet ≠ -1) "Failed to read from socket"⟩

/-- Model of `UDP::write` (src/udp.hh:178-184): `sendto` to the stored address,
`-1` check, return the byte count. -/
def UDP.write (udp : UDP) (size : Nat) (osRet : Int) : RawOut UDP :=
  ⟨[SysEvent.sendCall udp.sock_fd size (some udp.sock_conf)], udp,
    match assert_throw (osRet ≠ -1) "Failed to write to socket" with
    | .error e => .error e
    | .ok _ => .ok osRet⟩

/-- Model of `UDP::read` (src/udp.hh:187-192): `recv`, `-1` check, return the byte
count. -/
def UDP.read (udp : UDP) (size : Nat) (osRet : Int) : RawOut UDP :=
  ⟨[SysEvent.recvCall udp.sock_fd size], udp,
    match assert_throw (osRet ≠ -1) "Failed to read from socket" with
    | .error e => .error e
    | .ok _ => .ok osRet⟩

/-- Model of `operator<<(std::vector<char>&, const std::string)` (src/tcp.hh:27-31,
src/udp.hh:25-29): `std::copy(str.begin(), str.end() + 1, vec.begin())`
copies the string's characters plus its terminating NUL to the start of
the vector, with no resize and no bounds check.  This helper is modelled
on character lists because element values matter here; `none` marks the
out-of-bounds (undefined-behavior) case where the vector holds fewer than
`str.length + 1` elements. -/
def vecLoadString (vec : List Char) (str : List Char) : Option (List Char) :=
  let bytes := str ++ [Char.ofNat 0]
  if bytes.length ≤ vec.length then some (bytes ++ vec.drop bytes.length)
  else none

/-- C1 (amended): for every role and every port string rejected by the
unsigned-integer parse, constructing a stream or datagram endpoint fails
with the port-parse error (`InvalidAddressError`), but only AFTER the
socket handle has been created — the trace of the failed construction is
exactly the socket creation, with no close, so the handle is leaked. -/
theorem C1_invalid_port_fails_after_socket_created (o : CtorOracle)
    (ipT ipU port : String) (st : TCP.Side) (su : UDP.Side) (m : String)
    (hp : stoul port = .error (.invalidArgument m)) (hfd : o.socketRet ≠ -1) :
    TCP.construct o ipT port st =
      ([SysEvent.socketCreate o.socketRet], .error (.invalidArgument m))
    ∧ UDP.construct o ipU port su =
      ([SysEvent.socketCreate o.socketRet], .error (.invalidArgument m)) := by
  simp [TCP.construct, UDP.construct, assert_throw, hfd, hp]

/-- Witness for C1 at the oracle fd 3 and the non-numeric port "abc". -/
theorem C1_invalid_port_fails_after_socket_created_witness :
    TCP.construct ⟨3, 0, 0, zeroAddr⟩ "10.0.0.1" "abc" TCP.Side.CLIENT =
      ([SysEvent.socketCreate 3], .error (.invalidArgument "stoul"))
    ∧ UDP.construct ⟨3, 0, 0, zeroAddr⟩ "10.0.0.1" "abc" UDP.Side.CLIENT =
      ([SysEvent.socketCreate 3], .error (.invalidArgument "stoul")) :=
  C1_invalid_port_fails_after_socket_created ⟨3, 0, 0, zeroAddr⟩ "10.0.0.1" "10.0.0.1"
    "abc" TCP.Side.CLIENT UDP.Side.CLIENT "stoul" (by decide) (by decide)

/-- C1 counterexample: with `socket` returning fd 3 and the non-numeric
port "abc", the constructor's trace already contains the socket creation
when the port-parse failure propagates, and fd 3 is never closed —
refuting "fails before any socket handle is created (no handle leak)". -/
theorem C1_counterexample :
    (TCP.construct ⟨3, 0, 0, zeroAddr⟩ "127.0.0.1" "abc" TCP.Side.CLIENT).1 =
      [SysEvent.socketCreate 3]
    ∧ (TCP.construct ⟨3, 0, 0, zeroAddr⟩ "127.0.0.1" "abc" TCP.Side.CLIENT).2 =
      .error (.invalidArgument "stoul")
    ∧ SysEvent.closeCall 3 ∉
        (TCP.construct ⟨3, 0, 0, zeroAddr⟩ "127.0.0.1" "abc" TCP.Side.CLIENT).1
    ∧ (UDP.construct ⟨3, 0, 0, zeroAddr⟩ "127.0.0.1" "abc" UDP.Side.CLIENT).1 =
      [SysEvent.socketCreate 3] := by
  decide

/-- C2 (code evaluated at the failing input): moving a UDP client endpoint
configured with peer 10.0.0.1:9000 leaves the destination with a ZEROED
address configuration (the `std::fill` in the move operations lacks the
`obj.` qualifier, so it clears the destination's own `sock_conf` right
after copying), while the source — whose fd does get the −1 sentinel —
keeps the address.  A subsequent send from the destination therefore
targets the zero address, not the configured peer; and TCP move
assignment leaves the destination's old role tag in place (it never
copies `side`). -/
theorem C2_move_zeroes_destination_conf :
    (UDP.moveCtor ⟨5, ⟨AF_INET, htons 9000, inet_addr "10.0.0.1"⟩, 16,
        UDP.Side.CLIENT⟩).1.sock_conf = zeroAddr
    ∧ (UDP.moveCtor ⟨5, ⟨AF_INET, htons 9000, inet_addr "10.0.0.1"⟩, 16,
        UDP.Side.CLIENT⟩).1.sock_conf ≠ ⟨AF_INET, htons 9000, inet_addr "10.0.0.1"⟩
    ∧ (UDP.moveCtor ⟨5, ⟨AF_INET, htons 9000, inet_addr "10.0.0.1"⟩, 16,
        UDP.Side.CLIENT⟩).2.sock_fd = -1
    ∧ (UDP.moveCtor ⟨5, ⟨AF_INET, htons 9000, inet_addr "10.0.0.1"⟩, 16,
        UDP.Side.CLIENT⟩).2.sock_conf = ⟨AF_INET, htons 9000, inet_addr "10.0.0.1"⟩
    ∧ (UDP.sendString
        (UDP.moveCtor ⟨5, ⟨AF_INET, htons 9000, inet_addr "10.0.0.1"⟩, 16,
          UDP.Side.CLIENT⟩).1 5 6).trace = [SysEvent.sendCall 5 6 (some zeroAddr)]
    ∧ (TCP.moveCtor ⟨5, ⟨AF_INET, htons 9000, 1⟩, -1, TCP.Side.CLIENT⟩).1 =
      ⟨5, zeroAddr, -1, TCP.Side.CLIENT⟩
    ∧ (TCP.moveAssign ⟨7, zeroAddr, 16, TCP.Side.SERVER⟩
        ⟨5, zeroAddr, -1, TCP.Side.CLIENT⟩).1.side = TCP.Side.SERVER := by
  decide

/-- C3 (code evaluated at the failing input): when the OS read reports
failure (−1), the string receive paths raise `std::length_error` from the
premature `obj.resize(nbytes)` — placed BEFORE the −1 check — instead of
the ReadError (`"Failed to read from socket"`); the string itself keeps
its old size.  The sequence-buffer path does raise ReadError, but leaves
the caller's vector resized to full capacity (size 8 here, originally 2)
by its pre-read `resize(capacity)`. -/
theorem C3_failed_string_read_raises_length_error :
    (TCP.recvString ⟨3, zeroAddr, -1, TCP.Side.CLIENT⟩ ⟨0, 8⟩ (-1)).result =
      .error (.lengthError "basic_string::resize")
    ∧ (TCP.recvString ⟨3, zeroAddr, -1, TCP.Side.CLIENT⟩ ⟨0, 8⟩ (-1)).result ≠
      .error (.runtimeError "Failed to read from socket")
    ∧ (TCP.recvString ⟨3, zeroAddr, -1, TCP.Side.CLIENT⟩ ⟨0, 8⟩ (-1)).buf = ⟨0, 8⟩
    ∧ (UDP.recvString ⟨3, zeroAddr, 16, UDP.Side.CLIENT⟩ ⟨0, 8⟩ (-1)).result =
      .error (.lengthError "basic_string::resize")
    ∧ (TCP.recvVector ⟨3, zeroAddr, -1, TCP.Side.CLIENT⟩ 1 ⟨2, 8⟩ (-1)).result =
      .error (.runtimeError "Failed to read from socket")
    ∧ (TCP.recvVector ⟨3, zeroAddr, -1, TCP.Side.CLIENT⟩ 1 ⟨2, 8⟩ (-1)).buf.size = 8 := by
  decide

/-- C4: on a stream endpoint whose role tag is SERVER, every send and
every receive variant (sequence, string, fixed-layout value, raw
write/read) fails with the role-violation error and performs no OS call
(empty trace, endpoint and buffer untouched), while `accept_connection`
succeeds whenever `listen` and `accept` do. -/
theorem C4_server_role_blocks_io_without_syscall (t : TCP)
    (h : t.side = TCP.Side.SERVER)
    (count es len sz bufsz : Nat) (v : Vec) (r : Int)
    (q : Nat) (lr ar : Int) (pa : SockAddrIn) (pl : Int)
    (hlr : lr ≠ -1) (har : ar ≠ -1) :
    TCP.sendVector t count es r =
      ⟨[], t, .error (.runtimeError "Can not write to server socket")⟩
    ∧ TCP.recvVector t es v r =
      ⟨[], t, v, .error (.runtimeError "Can not read from server socket")⟩
    ∧ TCP.sendString t len r =
      ⟨[], t, .error (.runtimeError "Can not write to server socket")⟩
    ∧ TCP.recvString t v r =
      ⟨[], t, v, .error (.runtimeError "Can not read from server socket")⟩
    ∧ TCP.sendTrivial t sz r =
      ⟨[], t, .error (.runtimeError "Can not write to server socket")⟩
    ∧ TCP.recvTrivial t sz r =
      ⟨[], t, .error (.runtimeError "Can not read from server socket")⟩
    ∧ TCP.write t bufsz r =
      ⟨[], t, .error (.runtimeError "Can not write to server socket")⟩
    ∧ TCP.read t bufsz r =
      ⟨[], t, .error (.runtimeError "Can not read from server socket")⟩
    ∧ (TCP.accept_connection t q lr ar pa pl).2.2 = .ok (TCP.ofAcceptedFd ar) := by
  simp [TCP.sendVector, TCP.recvVector, TCP.sendString, TCP.recvString, TCP.sendTrivial,
    TCP.recvTrivial, TCP.write, TCP.read, TCP.accept_connection, h, assert_throw, hlr, har]

/-- Witness for C4 on a concrete SERVER endpoint with fd 3. -/
theorem C4_server_role_blocks_io_without_syscall_witness :
    TCP.sendVector ⟨3, zeroAddr, 16, TCP.Side.SERVER⟩ 2 4 7 =
      ⟨[], ⟨3, zeroAddr, 16, TCP.Side.SERVER⟩,
        .error (.runtimeError "Can not write to server socket")⟩
    ∧ TCP.recvVector ⟨3, zeroAddr, 16, TCP.Side.SERVER⟩ 4 ⟨0, 8⟩ 7 =
      ⟨[], ⟨3, zeroAddr, 16, TCP.Side.SERVER⟩, ⟨0, 8⟩,
        .error (.runtimeError "Can not read from server socket")⟩
    ∧ TCP.sendString ⟨3, zeroAddr, 16, TCP.Side.SERVER⟩ 5 7 =
      ⟨[], ⟨3, zeroAddr, 16, TCP.Side.SERVER⟩,
        .error (.runtimeError "Can not write to server socket")⟩
    ∧ TCP.recvString ⟨3, zeroAddr, 16, TCP.Side.SERVER⟩ ⟨0, 8⟩ 7 =
      ⟨[], ⟨3, zeroAddr, 16, TCP.Side.SERVER⟩, ⟨0, 8⟩,
        .error (.runtimeError "Can not read from server socket")⟩
    ∧ TCP.sendTrivial ⟨3, zeroAddr, 16, TCP.Side.SERVER⟩ 8 7 =
      ⟨[], ⟨3, zeroAddr, 16, TCP.Side.SERVER⟩,
        .error (.runtimeError "Can not write to server socket")⟩
    ∧ TCP.recvTrivial ⟨3, zeroAddr, 16, TCP.Side.SERVER⟩ 8 7 =
      ⟨[], ⟨3, zeroAddr, 16, TCP.Side.SERVER⟩,
        .error (.runtimeError "Can not read from server socket")⟩
    ∧ TCP.write ⟨3, zeroAddr, 16, TCP.Side.SERVER⟩ 16 7 =
      ⟨[], ⟨3, zeroAddr, 16, TCP.Side.SERVER⟩,
        .error (.runtimeError "Can not write to server socket")⟩
    ∧ TCP.read ⟨3, zeroAddr, 16, TCP.Side.SERVER⟩ 16 7 =
      ⟨[], ⟨3, zeroAddr, 16, TCP.Side.SERVER⟩,
        .error (.runtimeError "Can not read from server socket")⟩
    ∧ (TCP.accept_connection ⟨3, zeroAddr, 16, TCP.Side.SERVER⟩ 4 0 9 zeroAddr 16).2.2 =
      .ok (TCP.ofAcceptedFd 9) :=
  C4_server_role_blocks_io_without_syscall ⟨3, zeroAddr, 16, TCP.Side.SERVER⟩ rfl
    2 4 5 8 16 ⟨0, 8⟩ 7 4 0 9 zeroAddr 16 (by decide) (by decide)

/-- C5: the byte count handed to the OS send primitive is
`count * elemSize` for a sequence of fixed-size elements, `length + 1`
(one trailing terminator byte) for a text string, and `sizeof(T)` for a
single fixed-layout value — on both transports. -/
theorem C5_send_byte_counts (t : TCP) (h : t.side ≠ TCP.Side.SERVER) (u : UDP)
    (count es len sz : Nat) (r : Int) :
    (TCP.sendVector t count es r).trace = [SysEvent.sendCall t.sock_fd (count * es) none]
    ∧ (TCP.sendString t len r).trace = [SysEvent.sendCall t.sock_fd (len + 1) none]
    ∧ (TCP.sendTrivial t sz r).trace = [SysEvent.sendCall t.sock_fd sz none]
    ∧ (UDP.sendVector u count es r).trace =
        [SysEvent.sendCall u.sock_fd (count * es) (some u.sock_conf)]
    ∧ (UDP.sendString u len r).trace =
        [SysEvent.sendCall u.sock_fd (len + 1) (some u.sock_conf)]
    ∧ (UDP.sendTrivial u sz r).trace =
        [SysEvent.sendCall u.sock_fd sz (some u.sock_conf)] := by
  simp [TCP.sendVector, TCP.sendString, TCP.sendTrivial, UDP.sendVector, UDP.sendString,
    UDP.sendTrivial, assert_throw, h]

/-- Witness for C5: 2 elements of 4 bytes, a 5-char string, an 8-byte value. -/
theorem C5_send_byte_counts_witness :
    (TCP.sendVector ⟨3, zeroAddr, -1, TCP.Side.CLIENT⟩ 2 4 7).trace =
      [SysEvent.sendCall 3 (2 * 4) none]
    ∧ (TCP.sendString ⟨3, zeroAddr, -1, TCP.Side.CLIENT⟩ 5 7).trace =
      [SysEvent.sendCall 3 (5 + 1) none]
    ∧ (TCP.sendTrivial ⟨3, zeroAddr, -1, TCP.Side.CLIENT⟩ 8 7).trace =
      [SysEvent.sendCall 3 8 none]
    ∧ (UDP.sendVector ⟨5, ⟨AF_INET, 1, 1⟩, 16, UDP.Side.CLIENT⟩ 2 4 7).trace =
      [SysEvent.sendCall 5 (2 * 4) (some ⟨AF_INET, 1, 1⟩)]
    ∧ (UDP.sendString ⟨5, ⟨AF_INET, 1, 1⟩, 16, UDP.Side.CLIENT⟩ 5 7).trace =
      [SysEvent.sendCall 5 (5 + 1) (some ⟨AF_INET, 1, 1⟩)]
    ∧ (UDP.sendTrivial ⟨5, ⟨AF_INET, 1, 1⟩, 16, UDP.Side.CLIENT⟩ 8 7).trace =
      [SysEvent.sendCall 5 8 (some ⟨AF_INET, 1, 1⟩)] :=
  C5_send_byte_counts ⟨3, zeroAddr, -1, TCP.Side.CLIENT⟩ (by decide)
    ⟨5, ⟨AF_INET, 1, 1⟩, 16, UDP.Side.CLIENT⟩ 2 4 5 8 7

/-- C6: no send or receive operation, on either transport, changes the
endpoint's own state (handle, address configuration, length marker, role
tag); every datagram send — Server role included — targets the endpoint's
stored address, which for a successfully constructed Server is exactly the
constructor-time address (`INADDR_ANY` with the parsed port), and a
datagram receive uses `recv` (no sender address is captured, so no
last-sender slot exists to update). -/
theorem C6_send_recv_preserve_endpoint_state (t : TCP) (u : UDP)
    (count es len sz bufsz : Nat) (v : Vec) (r : Int)
    (o : CtorOracle) (ip port : String) (p : Nat) (u0 : UDP)
    (hp : stoul port = .ok p)
    (hc : (UDP.construct o ip port UDP.Side.SERVER).2 = .ok u0) :
    (TCP.sendVector t count es r).endpoint = t
    ∧ (TCP.recvVector t es v r).endpoint = t
    ∧ (TCP.sendString t len r).endpoint = t
    ∧ (TCP.recvString t v r).endpoint = t
    ∧ (TCP.sendTrivial t sz r).endpoint = t
    ∧ (TCP.recvTrivial t sz r).endpoint = t
    ∧ (TCP.write t bufsz r).endpoint = t
    ∧ (TCP.read t bufsz r).endpoint = t
    ∧ (UDP.sendVector u count es r).endpoint = u
    ∧ (UDP.recvVector u es v r).endpoint = u
    ∧ (UDP.sendString u len r).endpoint = u
    ∧ (UDP.recvString u v r).endpoint = u
    ∧ (UDP.sendTrivial u sz r).endpoint = u
    ∧ (UDP.recvTrivial u sz r).endpoint = u
    ∧ (UDP.write u bufsz r).endpoint = u
    ∧ (UDP.read u bufsz r).endpoint = u
    ∧ (UDP.sendVector u count es r).trace =
        [SysEvent.sendCall u.sock_fd (count * es) (some u.sock_conf)]
    ∧ (UDP.recvVector u es v r).trace = [SysEvent.recvCall u.sock_fd (v.capacity * es)]
    ∧ u0.sock_conf = ⟨AF_INET, htons p, INADDR_ANY⟩
    ∧ (UDP.sendVector u0 count es r).trace =
        [SysEvent.sendCall u0.sock_fd (count * es)
          (some (⟨AF_INET, htons p, INADDR_ANY⟩ : SockAddrIn))] := by
  have hconf : u0.sock_conf = ⟨AF_INET, htons p, INADDR_ANY⟩ := by
    by_cases hfd : o.socketRet = -1
    · simp [UDP.construct, assert_throw, hfd] at hc
    · by_cases hb : o.bindRet = -1
      · simp [UDP.construct, assert_throw, hfd, hb, hp] at hc
      · simp [UDP.construct, assert_throw, hfd, hb, hp] at hc
        subst hc
        simp [zeroAddr, INADDR_ANY]
  refine ⟨?_, ?_, ?_, ?_, ?_, ?_, ?_, ?_, ?_, ?_, ?_, ?_, ?_, ?_, ?_, ?_, ?_, ?_,
    hconf, ?_⟩
  all_goals
    first
    | (by_cases hs : t.side = TCP.Side.SERVER <;>
        by_cases hr : r = -1 <;>
        simp [TCP.sendVector, TCP.recvVector, TCP.sendString, TCP.sendTrivial,
          TCP.recvTrivial, TCP.write, TCP.read, assert_throw, hs, hr])
    | (by_cases hs : t.side = TCP.Side.SERVER <;>
        by_cases hr : r < 0 <;>
        simp [TCP.recvString, assert_throw, hs, hr])
    | (by_cases hr : r < 0 <;> simp [UDP.recvString, assert_throw, hr])
    | (by_cases hr : r = -1 <;>
        simp [UDP.sendVector, UDP.recvVector, UDP.sendString, UDP.sendTrivial,
          UDP.recvTrivial, UDP.write, UDP.read, assert_throw, hr, hconf])

/-- Witness for C6 on concrete endpoints and the server constructed from
oracle fd 3, port "5000". -/
theorem C6_send_recv_preserve_endpoint_state_witness :
    (TCP.sendVector ⟨4, zeroAddr, -1, TCP.Side.CLIENT⟩ 2 4 7).endpoint =
      ⟨4, zeroAddr, -1, TCP.Side.CLIENT⟩
    ∧ (TCP.recvVector ⟨4, zeroAddr, -1, TCP.Side.CLIENT⟩ 4 ⟨0, 8⟩ 7).endpoint =
      ⟨4, zeroAddr, -1, TCP.Side.CLIENT⟩
    ∧ (TCP.sendString ⟨4, zeroAddr, -1, TCP.Side.CLIENT⟩ 5 7).endpoint =
      ⟨4, zeroAddr, -1, TCP.Side.CLIENT⟩
    ∧ (TCP.recvString ⟨4, zeroAddr, -1, TCP.Side.CLIENT⟩ ⟨0, 8⟩ 7).endpoint =
      ⟨4, zeroAddr, -1, TCP.Side.CLIENT⟩
    ∧ (TCP.sendTrivial ⟨4, zeroAddr, -1, TCP.Side.CLIENT⟩ 8 7).endpoint =
      ⟨4, zeroAddr, -1, TCP.Side.CLIENT⟩
    ∧ (TCP.recvTrivial ⟨4, zeroAddr, -1, TCP.Side.CLIENT⟩ 8 7).endpoint =
      ⟨4, zeroAddr, -1, TCP.Side.CLIENT⟩
    ∧ (TCP.write ⟨4, zeroAddr, -1, TCP.Side.CLIENT⟩ 16 7).endpoint =
      ⟨4, zeroAddr, -1, TCP.Side.CLIENT⟩
    ∧ (TCP.read ⟨4, zeroAddr, -1, TCP.Side.CLIENT⟩ 16 7).endpoint =
      ⟨4, zeroAddr, -1, TCP.Side.CLIENT⟩
    ∧ (UDP.sendVector ⟨5, ⟨AF_INET, 1, 1⟩, 16, UDP.Side.CLIENT⟩ 2 4 7).endpoint =
      ⟨5, ⟨AF_INET, 1, 1⟩, 16, UDP.Side.CLIENT⟩
    ∧ (UDP.recvVector ⟨5, ⟨AF_INET, 1, 1⟩, 16, UDP.Side.CLIENT⟩ 4 ⟨0, 8⟩ 7).endpoint =
      ⟨5, ⟨AF_INET, 1, 1⟩, 16, UDP.Side.CLIENT⟩
    ∧ (UDP.sendString ⟨5, ⟨AF_INET, 1, 1⟩, 16, UDP.Side.CLIENT⟩ 5 7).endpoint =
      ⟨5, ⟨AF_INET, 1, 1⟩, 16, UDP.Side.CLIENT⟩
    ∧ (UDP.recvString ⟨5, ⟨AF_INET, 1, 1⟩, 16, UDP.Side.CLIENT⟩ ⟨0, 8⟩ 7).endpoint =
      ⟨5, ⟨AF_INET, 1, 1⟩, 16, UDP.Side.CLIENT⟩
    ∧ (UDP.sendTrivial ⟨5, ⟨AF_INET, 1, 1⟩, 16, UDP.Side.CLIENT⟩ 8 7).endpoint =
      ⟨5, ⟨AF_INET, 1, 1⟩, 16, UDP.Side.CLIENT⟩
    ∧ (UDP.recvTrivial ⟨5, ⟨AF_INET, 1, 1⟩, 16, UDP.Side.CLIENT⟩ 8 7).endpoint =
      ⟨5, ⟨AF_INET, 1, 1⟩, 16, UDP.Side.CLIENT⟩
    ∧ (UDP.write ⟨5, ⟨AF_INET, 1, 1⟩, 16, UDP.Side.CLIENT⟩ 16 7).endpoint =
      ⟨5, ⟨AF_INET, 1, 1⟩, 16, UDP.Side.CLIENT⟩
    ∧ (UDP.read ⟨5, ⟨AF_INET, 1, 1⟩, 16, UDP.Side.CLIENT⟩ 16 7).endpoint =
      ⟨5, ⟨AF_INET, 1, 1⟩, 16, UDP.Side.CLIENT⟩
    ∧ (UDP.sendVector ⟨5, ⟨AF_INET, 1, 1⟩, 16, UDP.Side.CLIENT⟩ 2 4 7).trace =
      [SysEvent.sendCall 5 (2 * 4) (some ⟨AF_INET, 1, 1⟩)]
    ∧ (UDP.recvVector ⟨5, ⟨AF_INET, 1, 1⟩, 16, UDP.Side.CLIENT⟩ 4 ⟨0, 8⟩ 7).trace =
      [SysEvent.recvCall 5 (8 * 4)]
    ∧ (⟨3, ⟨AF_INET, htons 5000, INADDR_ANY⟩, 16, UDP.Side.SERVER⟩ : UDP).sock_conf =
      ⟨AF_INET, htons 5000, INADDR_ANY⟩
    ∧ (UDP.sendVector ⟨3, ⟨AF_INET, htons 5000, INADDR_ANY⟩, 16, UDP.Side.SERVER⟩
        2 4 7).trace =
      [SysEvent.sendCall 3 (2 * 4) (some (⟨AF_INET, htons 5000, INADDR_ANY⟩ : SockAddrIn))] :=
  C6_send_recv_preserve_endpoint_state ⟨4, zeroAddr, -1, TCP.Side.CLIENT⟩
    ⟨5, ⟨AF_INET, 1, 1⟩, 16, UDP.Side.CLIENT⟩ 2 4 5 8 16 ⟨0, 8⟩ 7
    ⟨3, 0, 0, zeroAddr⟩ "0.0.0.0" "5000" 5000
    ⟨3, ⟨AF_INET, htons 5000, INADDR_ANY⟩, 16, UDP.Side.SERVER⟩ (by decide) (by decide)

/-- C7 (amended): `accept_connection` fails with the role-violation error
(and makes no OS call) on any non-SERVER role, and on success returns a
new endpoint with role tag CONNECTION wrapping the accepted fd; however, a
CONNECTION-role endpoint can also come into existence directly through the
public constructor by passing the CONNECTION enumerator, which performs
neither bind, connect, listen nor accept. -/
theorem C7_connection_role_from_accept_or_public_ctor (t : TCP) (q : Nat)
    (lr ar : Int) (pa : SockAddrIn) (pl : Int)
    (o : CtorOracle) (ip port : String) (p : Nat)
    (hlr : lr ≠ -1) (har : ar ≠ -1)
    (hp : stoul port = .ok p) (hfd : o.socketRet ≠ -1) :
    (t.side ≠ TCP.Side.SERVER →
      TCP.accept_connection t q lr ar pa pl =
        ([], t, .error (.runtimeError "Must accept connection from server")))
    ∧ (t.side = TCP.Side.SERVER →
      (TCP.accept_connection t q lr ar pa pl).2.2 = .ok (TCP.ofAcceptedFd ar))
    ∧ (TCP.ofAcceptedFd ar).side = TCP.Side.CONNECTION
    ∧ (TCP.ofAcceptedFd ar).sock_fd = ar
    ∧ (TCP.construct o ip port TCP.Side.CONNECTION).2 =
      .ok ⟨o.socketRet, ⟨AF_INET, htons p, o.initConf.sin_addr⟩, 16,
        TCP.Side.CONNECTION⟩ := by
  refine ⟨?_, ?_, rfl, rfl, ?_⟩
  · intro hs
    simp [TCP.accept_connection, assert_throw, hs]
  · intro hs
    simp [TCP.accept_connection, assert_throw, hs, hlr, har]
  · simp [TCP.construct, assert_throw, hfd, hp]

/-- Witness for C7 on a SERVER endpoint with fd 3 accepting fd 9, and the
public constructor applied to the CONNECTION enumerator with port "8080". -/
theorem C7_connection_role_from_accept_or_public_ctor_witness :
    ((⟨3, zeroAddr, 16, TCP.Side.SERVER⟩ : TCP).side ≠ TCP.Side.SERVER →
      TCP.accept_connection ⟨3, zeroAddr, 16, TCP.Side.SERVER⟩ 4 0 9 zeroAddr 16 =
        ([], ⟨3, zeroAddr, 16, TCP.Side.SERVER⟩,
          .error (.runtimeError "Must accept connection from server")))
    ∧ ((⟨3, zeroAddr, 16, TCP.Side.SERVER⟩ : TCP).side = TCP.Side.SERVER →
      (TCP.accept_connection ⟨3, zeroAddr, 16, TCP.Side.SERVER⟩ 4 0 9 zeroAddr 16).2.2 =
        .ok (TCP.ofAcceptedFd 9))
    ∧ (TCP.ofAcceptedFd 9).side = TCP.Side.CONNECTION
    ∧ (TCP.ofAcceptedFd 9).sock_fd = 9
    ∧ (TCP.construct ⟨3, -1, -1, zeroAddr⟩ "" "8080" TCP.Side.CONNECTION).2 =
      .ok ⟨3, ⟨AF_INET, htons 8080, 0⟩, 16, TCP.Side.CONNECTION⟩ :=
  C7_connection_role_from_accept_or_public_ctor ⟨3, zeroAddr, 16, TCP.Side.SERVER⟩
    4 0 9 zeroAddr 16 ⟨3, -1, -1, zeroAddr⟩ "" "8080" 8080
    (by decide) (by decide) (by decide) (by decide)

/-- C7 counterexample: with `socket` returning fd 3, the PUBLIC
constructor invoked with the CONNECTION enumerator and port "8080"
succeeds — its trace is only the socket creation (no bind, connect,
listen or accept) — and yields an endpoint whose role tag is CONNECTION,
so a Connection-role endpoint exists that is not the result of any
`accept_connection`. -/
theorem C7_counterexample :
    (TCP.construct ⟨3, -1, -1, zeroAddr⟩ "" "8080" TCP.Side.CONNECTION).1 =
      [SysEvent.socketCreate 3]
    ∧ (TCP.construct ⟨3, -1, -1, zeroAddr⟩ "" "8080" TCP.Side.CONNECTION).2 =
      .ok ⟨3, ⟨AF_INET, htons 8080, 0⟩, 16, TCP.Side.CONNECTION⟩ := by
  decide

/-- C8: on a stream endpoint whose role is CLIENT or CONNECTION, an OS
read of zero bytes is a success — the sequence buffer's logical length
becomes zero and the raw read returns 0 — and the ReadError is raised
exactly when the OS reports failure (−1), a distinct outcome. -/
theorem C8_zero_byte_read_is_success (t : TCP) (h : t.side ≠ TCP.Side.SERVER)
    (es sz : Nat) (v : Vec) :
    (TCP.recvVector t es v 0).result = .ok ()
    ∧ (TCP.recvVector t es v 0).buf.size = 0
    ∧ (TCP.read t sz 0).result = .ok 0
    ∧ (∀ r : Int,
        (TCP.recvVector t es v r).result =
          .error (.runtimeError "Failed to read from socket") ↔ r = -1)
    ∧ (∀ r : Int,
        (TCP.read t sz r).result =
          .error (.runtimeError "Failed to read from socket") ↔ r = -1) := by
  refine ⟨?_, ?_, ?_, ?_, ?_⟩
  · simp [TCP.recvVector, assert_throw, h]
  · simp [TCP.recvVector, assert_throw, h]
  · simp [TCP.read, assert_throw, h]
  · intro r
    by_cases hr : r = -1 <;> simp [TCP.recvVector, assert_throw, h, hr]
  · intro r
    by_cases hr : r = -1 <;> simp [TCP.read, assert_throw, h, hr]

/-- Witness for C8 on a CONNECTION endpoint with fd 9. -/
theorem C8_zero_byte_read_is_success_witness :
    (TCP.recvVector ⟨9, zeroAddr, -1, TCP.Side.CONNECTION⟩ 4 ⟨0, 8⟩ 0).result = .ok ()
    ∧ (TCP.recvVector ⟨9, zeroAddr, -1, TCP.Side.CONNECTION⟩ 4 ⟨0, 8⟩ 0).buf.size = 0
    ∧ (TCP.read ⟨9, zeroAddr, -1, TCP.Side.CONNECTION⟩ 16 0).result = .ok 0
    ∧ (∀ r : Int,
        (TCP.recvVector ⟨9, zeroAddr, -1, TCP.Side.CONNECTION⟩ 4 ⟨0, 8⟩ r).result =
          .error (.runtimeError "Failed to read from socket") ↔ r = -1)
    ∧ (∀ r : Int,
        (TCP.read ⟨9, zeroAddr, -1, TCP.Side.CONNECTION⟩ 16 r).result =
          .error (.runtimeError "Failed to read from socket") ↔ r = -1) :=
  C8_zero_byte_read_is_success ⟨9, zeroAddr, -1, TCP.Side.CONNECTION⟩ (by decide) 4 16 ⟨0, 8⟩

/-- C9: a successful receive of `n ≥ 0` bytes into a sequence buffer of
element size `s > 0` leaves the buffer's logical length at exactly
`n / s` (floor — a trailing partial element is excluded) and never above
the pre-call capacity (the OS reads at most `capacity * s` bytes), with
the capacity itself unchanged; on both transports. -/
theorem C9_recv_vector_length_floor_div (t : TCP) (u : UDP)
    (ht : t.side ≠ TCP.Side.SERVER)
    (s : Nat) (hs : 0 < s) (v : Vec) (n : Int) (hn : 0 ≤ n)
    (hcap : n.toNat ≤ v.capacity * s) :
    (TCP.recvVector t s v n).result = .ok ()
    ∧ (TCP.recvVector t s v n).buf.size = n.toNat / s
    ∧ (TCP.recvVector t s v n).buf.size ≤ v.capacity
    ∧ (TCP.recvVector t s v n).buf.capacity = v.capacity
    ∧ (UDP.recvVector u s v n).result = .ok ()
    ∧ (UDP.recvVector u s v n).buf.size = n.toNat / s
    ∧ (UDP.recvVector u s v n).buf.size ≤ v.capacity
    ∧ (UDP.recvVector u s v n).buf.capacity = v.capacity := by
  have hne : n ≠ -1 := by omega
  have hdivle : n.toNat / s ≤ v.capacity := by
    calc n.toNat / s ≤ v.capacity * s / s := Nat.div_le_div_right hcap
    _ = v.capacity := Nat.mul_div_cancel _ hs
  simp [TCP.recvVector, UDP.recvVector, assert_throw, ht, hne, hdivle]

/-- Witness for C9: 11 bytes received into a capacity-8 buffer of 4-byte
elements give logical length 2 (the 3 trailing bytes are dropped). -/
theorem C9_recv_vector_length_floor_div_witness :
    (TCP.recvVector ⟨4, zeroAddr, -1, TCP.Side.CLIENT⟩ 4 ⟨0, 8⟩ 11).result = .ok ()
    ∧ (TCP.recvVector ⟨4, zeroAddr, -1, TCP.Side.CLIENT⟩ 4 ⟨0, 8⟩ 11).buf.size =
      (11 : Int).toNat / 4
    ∧ (TCP.recvVector ⟨4, zeroAddr, -1, TCP.Side.CLIENT⟩ 4 ⟨0, 8⟩ 11).buf.size ≤ 8
    ∧ (TCP.recvVector ⟨4, zeroAddr, -1, TCP.Side.CLIENT⟩ 4 ⟨0, 8⟩ 11).buf.capacity = 8
    ∧ (UDP.recvVector ⟨5, ⟨AF_INET, 1, 1⟩, 16, UDP.Side.CLIENT⟩ 4 ⟨0, 8⟩ 11).result = .ok ()
    ∧ (UDP.recvVector ⟨5, ⟨AF_INET, 1, 1⟩, 16, UDP.Side.CLIENT⟩ 4 ⟨0, 8⟩ 11).buf.size =
      (11 : Int).toNat / 4
    ∧ (UDP.recvVector ⟨5, ⟨AF_INET, 1, 1⟩, 16, UDP.Side.CLIENT⟩ 4 ⟨0, 8⟩ 11).buf.size ≤ 8
    ∧ (UDP.recvVector ⟨5, ⟨AF_INET, 1, 1⟩, 16, UDP.Side.CLIENT⟩ 4 ⟨0, 8⟩ 11).buf.capacity
      = 8 :=
  C9_recv_vector_length_floor_div ⟨4, zeroAddr, -1, TCP.Side.CLIENT⟩
    ⟨5, ⟨AF_INET, 1, 1⟩, 16, UDP.Side.CLIENT⟩ (by decide) 4 (by decide) ⟨0, 8⟩ 11
    (by decide) (by decide)

/-- C10: the `vector<char> << string` helper copies exactly
`str.length + 1` characters (the string plus its NUL terminator) to the
start of the vector without growing it; it stays in bounds exactly when
the vector holds at least `str.length + 1` elements, and then the
elements past that prefix are unchanged.  Below that size the copy runs
past the vector's end (undefined behavior, modelled as `none`). -/
theorem C10_vec_load_string_bounds (vec str : List Char) :
    (str.length + 1 ≤ vec.length →
      vecLoadString vec str = some ((str ++ [Char.ofNat 0]) ++ vec.drop (str.length + 1))
      ∧ ((str ++ [Char.ofNat 0]) ++ vec.drop (str.length + 1)).length = vec.length
      ∧ ((str ++ [Char.ofNat 0]) ++ vec.drop (str.length + 1)).take (str.length + 1) =
          str ++ [Char.ofNat 0]
      ∧ ((str ++ [Char.ofNat 0]) ++ vec.drop (str.length + 1)).drop (str.length + 1) =
          vec.drop (str.length + 1))
    ∧ (vec.length < str.length + 1 → vecLoadString vec str = none) := by
  have hlen : (str ++ [Char.ofNat 0]).length = str.length + 1 := by simp
  constructor
  · intro h
    refine ⟨?_, ?_, ?_, ?_⟩
    · simp [vecLoadString, h]
    · simp
      omega
    · rw [← hlen, List.take_left]
    · rw [← hlen, List.drop_left]
  · intro h
    simp [vecLoadString]
    omega

/-- Witness for C10: loading "hi" into a 5-element vector fills the first
3 slots with 'h', 'i', NUL and leaves the last 2 untouched; a 2-element
vector is out of bounds. -/
theorem C10_vec_load_string_bounds_witness :
    vecLoadString ['a', 'b', 'c', 'd', 'e'] ['h', 'i'] =
      some ['h', 'i', Char.ofNat 0, 'd', 'e']
    ∧ vecLoadString ['a', 'b'] ['h', 'i'] = none := by
  constructor
  · exact ((C10_vec_load_string_bounds ['a', 'b', 'c', 'd', 'e'] ['h', 'i']).1
      (by decide)).1
  · exact (C10_vec_load_string_bounds ['a', 'b'] ['h', 'i']).2 (by decide)
